import Mathlib

/-!
Verification of the Elastic Transcoder pipeline reconciliation module
(`cloud/amazon/elastictranscoder.py`).

The module's logic is embedded shallowly:

* Python dictionaries with string keys and string values become association
  lists (`Dict`); Python's `d[k] = v` becomes `dinsert` (update in place or
  append), Python's `d.get(k)` becomes `dlookup`, and Python's `==` on
  dictionaries becomes `dictEq` (equality of the induced lookup functions,
  which coincides with Python dict equality on duplicate-free key lists).
* `str.title()` is modelled for the ASCII fragment by `pythonTitle`,
  using core's `Char.toUpper`/`Char.toLower`, whose definitions coincide
  with CPython's ASCII case maps.
* The boto connection is a record of the current remote pipeline list plus
  one behaviour function per mutating call; each behaviour either returns
  the new remote pipeline list or raises a `BotoServerError` carrying a
  message string (`Except.error`).
* `module.exit_json` / `module.fail_json` terminate the invocation, so the
  two entry points return an `Outcome` together with the list of mutating
  remote calls issued, in order.  Dereferencing `None` (Python
  `AttributeError`) is the distinguished outcome `Outcome.attrError`.
* The `notifications` module parameter is modelled as a supplied dict: when
  it is absent the Python code raises in `fix_up_notifications_dict` before
  any behaviour described by the claims is reached.
-/

/-- A Python dictionary with string keys and values, as an association list
in insertion order. -/
abbrev Dict := List (String × String)

/-- Python `d.get(k)`: the value at the first occurrence of key `k`, if any. -/
def dlookup : Dict → String → Option String
  | [], _ => none
  | kv :: rest, k => if kv.1 == k then some kv.2 else dlookup rest k

/-- Python `d[k] = v`: overwrite the value at the first occurrence of `k`,
or append a fresh binding at the end. -/
def dinsert : Dict → String → String → Dict
  | [], k, v => [(k, v)]
  | kv :: rest, k, v =>
    if kv.1 == k then (kv.1, v) :: rest else kv :: dinsert rest k v

/-- Python `==` on dictionaries: the two association lists induce the same
lookup function (checked on the union of their key sets). -/
def dictEq (a b : Dict) : Bool :=
  (a.all fun kv => dlookup a kv.1 == dlookup b kv.1) &&
  (b.all fun kv => dlookup a kv.1 == dlookup b kv.1)

/-! ### Python `str.title()` (ASCII fragment) -/

/-- CPython's `str.title()` loop on a character list: `prevCased` records
whether the previous character was cased (for ASCII: a letter).  A letter
after a non-cased position is uppercased, a letter after a cased position is
lowercased, non-letters pass through and reset the flag. -/
def titleChars : List Char → Bool → List Char
  | [], _ => []
  | c :: cs, prevCased =>
    if c.isAlpha then
      (if prevCased then c.toLower else c.toUpper) :: titleChars cs true
    else
      c :: titleChars cs false

/-- Python `s.title()` for ASCII strings. -/
def pythonTitle (s : String) : String := ⟨titleChars s.data false⟩

/-- Python `s.lower()` for ASCII strings. -/
def pythonLower (s : String) : String := ⟨s.data.map Char.toLower⟩

theorem toNat_ofNat_valid (n : Nat) (h : n.isValidChar) :
    (Char.ofNat n).toNat = n := by
  rw [Char.ofNat, dif_pos h]
  rfl

theorem toUpper_eq (c : Char) :
    c.toUpper = if c.toNat ≥ 97 ∧ c.toNat ≤ 122 then Char.ofNat (c.toNat - 32) else c := rfl

theorem toLower_eq (c : Char) :
    c.toLower = if c.toNat ≥ 65 ∧ c.toNat ≤ 90 then Char.ofNat (c.toNat + 32) else c := rfl

theorem toNat_toUpper_of_lower (c : Char)
    (h : 97 ≤ c.toNat ∧ c.toNat ≤ 122) : c.toUpper.toNat = c.toNat - 32 := by
  rw [toUpper_eq, if_pos h]
  exact toNat_ofNat_valid _ (Or.inl (by omega))

theorem toNat_toLower_of_upper (c : Char)
    (h : 65 ≤ c.toNat ∧ c.toNat ≤ 90) : c.toLower.toNat = c.toNat + 32 := by
  rw [toLower_eq, if_pos h]
  exact toNat_ofNat_valid _ (Or.inl (by omega))

theorem toUpper_toUpper (c : Char) : c.toUpper.toUpper = c.toUpper := by
  by_cases h : 97 ≤ c.toNat ∧ c.toNat ≤ 122
  · have ht := toNat_toUpper_of_lower c h
    rw [toUpper_eq c.toUpper, if_neg (by omega)]
  · rw [toUpper_eq c, if_neg h]
    rw [toUpper_eq, if_neg h]

theorem toLower_toLower (c : Char) : c.toLower.toLower = c.toLower := by
  by_cases h : 65 ≤ c.toNat ∧ c.toNat ≤ 90
  · have ht := toNat_toLower_of_upper c h
    rw [toLower_eq c.toLower, if_neg (by omega)]
  · rw [toLower_eq c, if_neg h]
    rw [toLower_eq, if_neg h]

theorem charEqOfToNatEq {a b : Char} (h : a.toNat = b.toNat) : a = b := by
  have := congrArg Char.ofNat h
  rwa [Char.ofNat_toNat, Char.ofNat_toNat] at this

theorem toLower_toUpper (c : Char) : c.toUpper.toLower = c.toLower := by
  by_cases h : 97 ≤ c.toNat ∧ c.toNat ≤ 122
  · have ht := toNat_toUpper_of_lower c h
    rw [toLower_eq c.toUpper, if_pos (by omega)]
    rw [toLower_eq c, if_neg (by omega)]
    apply charEqOfToNatEq
    rw [toNat_ofNat_valid _ (Or.inl (by omega))]
    omega
  · rw [toUpper_eq, if_neg h]

theorem toUpper_toLower (c : Char) : c.toLower.toUpper = c.toUpper := by
  by_cases h : 65 ≤ c.toNat ∧ c.toNat ≤ 90
  · have ht := toNat_toLower_of_upper c h
    rw [toUpper_eq c.toLower, if_pos (by omega)]
    rw [toUpper_eq c, if_neg (by omega)]
    apply charEqOfToNatEq
    rw [toNat_ofNat_valid _ (Or.inl (by omega))]
    omega
  · rw [toLower_eq, if_neg h]

theorem isAlpha_iff_toNat (c : Char) :
    c.isAlpha = true ↔
      (65 ≤ c.toNat ∧ c.toNat ≤ 90) ∨ (97 ≤ c.toNat ∧ c.toNat ≤ 122) := by
  simp only [Char.isAlpha, Char.isUpper, Char.isLower, Bool.or_eq_true,
    Bool.and_eq_true, decide_eq_true_eq]
  constructor
  · rintro (⟨h1, h2⟩ | ⟨h1, h2⟩)
    · exact Or.inl ⟨h1, h2⟩
    · exact Or.inr ⟨h1, h2⟩
  · rintro (⟨h1, h2⟩ | ⟨h1, h2⟩)
    · exact Or.inl ⟨h1, h2⟩
    · exact Or.inr ⟨h1, h2⟩

theorem isAlpha_toUpper (c : Char) : c.toUpper.isAlpha = c.isAlpha := by
  by_cases h : 97 ≤ c.toNat ∧ c.toNat ≤ 122
  · have ht := toNat_toUpper_of_lower c h
    have h1 : c.toUpper.isAlpha = true := by
      rw [isAlpha_iff_toNat]; exact Or.inl (by omega)
    have h2 : c.isAlpha = true := by
      rw [isAlpha_iff_toNat]; exact Or.inr h
    rw [h1, h2]
  · rw [toUpper_eq, if_neg h]

theorem isAlpha_toLower (c : Char) : c.toLower.isAlpha = c.isAlpha := by
  by_cases h : 65 ≤ c.toNat ∧ c.toNat ≤ 90
  · have ht := toNat_toLower_of_upper c h
    have h1 : c.toLower.isAlpha = true := by
      rw [isAlpha_iff_toNat]; exact Or.inr (by omega)
    have h2 : c.isAlpha = true := by
      rw [isAlpha_iff_toNat]; exact Or.inl h
    rw [h1, h2]
  · rw [toLower_eq, if_neg h]

theorem titleChars_idem (l : List Char) (b : Bool) :
    titleChars (titleChars l b) b = titleChars l b := by
  induction l generalizing b with
  | nil => rfl
  | cons c cs ih =>
    by_cases ha : c.isAlpha = true
    · cases b with
      | false =>
        rw [titleChars, if_pos ha, if_neg (Bool.false_ne_true)]
        rw [titleChars, if_pos (by rw [isAlpha_toUpper]; exact ha),
          if_neg (Bool.false_ne_true), toUpper_toUpper, ih]
      | true =>
        rw [titleChars, if_pos ha, if_pos rfl]
        rw [titleChars, if_pos (by rw [isAlpha_toLower]; exact ha),
          if_pos rfl, toLower_toLower, ih]
    · rw [titleChars, if_neg ha]
      rw [titleChars, if_neg ha, ih]

theorem titleChars_map_toLower (l : List Char) (b : Bool) :
    titleChars (l.map Char.toLower) b = titleChars l b := by
  induction l generalizing b with
  | nil => rfl
  | cons c cs ih =>
    rw [List.map_cons]
    by_cases ha : c.isAlpha = true
    · rw [titleChars, if_pos (by rw [isAlpha_toLower]; exact ha),
        toUpper_toLower, toLower_toLower, ih]
      rw [titleChars, if_pos ha]
    · have ha' : c.toLower = c := by
        rw [toLower_eq, if_neg]
        intro hc
        rw [isAlpha_iff_toNat] at ha
        exact ha (Or.inl hc)
      rw [ha']
      simp only [titleChars, if_neg ha]
      rw [ih]

theorem pythonTitle_idem (s : String) :
    pythonTitle (pythonTitle s) = pythonTitle s := by
  unfold pythonTitle
  rw [titleChars_idem]

theorem pythonTitle_lower (s : String) :
    pythonTitle (pythonLower s) = pythonTitle s := by
  unfold pythonTitle pythonLower
  rw [titleChars_map_toLower]

/-! ### Python values and heterogeneous dict equality (for `et_pipeline_equal`) -/

/-- The Python values appearing in the two dicts built by `et_pipeline_equal`:
`None`, strings, and (notification) dictionaries. -/
inductive PyVal
  | pynone : PyVal
  | pystr : String → PyVal
  | pydict : Dict → PyVal
deriving DecidableEq, Repr

/-- Python `==` on such values. -/
def pyEq : PyVal → PyVal → Bool
  | .pynone, .pynone => true
  | .pystr a, .pystr b => a == b
  | .pydict a, .pydict b => dictEq a b
  | _, _ => false

/-- A Python dictionary with string keys and `PyVal` values. -/
abbrev PyDict := List (String × PyVal)

/-- Python `d.get(k)` on a `PyDict`. -/
def pdlookup : PyDict → String → Option PyVal
  | [], _ => none
  | kv :: rest, k => if kv.1 == k then some kv.2 else pdlookup rest k

/-- Python `==` on optional values (both-absent counts as equal; it arises
for keys outside the dict). -/
def optPyEq : Option PyVal → Option PyVal → Bool
  | none, none => true
  | some a, some b => pyEq a b
  | _, _ => false

/-- Python `==` on `PyDict`s: same induced lookup function. -/
def pyDictEq (a b : PyDict) : Bool :=
  (a.all fun kv => optPyEq (pdlookup a kv.1) (pdlookup b kv.1)) &&
  (b.all fun kv => optPyEq (pdlookup a kv.1) (pdlookup b kv.1))

/-- The Python string-or-`None` of a `.get` on a string field. -/
def pyOfOptStr : Option String → PyVal
  | none => .pynone
  | some s => .pystr s

/-- The Python dict-or-`None` of a `.get` on a dict field. -/
def pyOfOptDict : Option Dict → PyVal
  | none => .pynone
  | some d => .pydict d

/-! ### Data model of the module -/

/-- A remote pipeline as returned by `list_pipelines` (a Python dict; each
field is the result of `.get` on the corresponding key, so absent keys are
`none`).  `OutputBucket` is carried but never read by the module. -/
structure Pipeline where
  Id : Option String
  Name : Option String
  Role : Option String
  InputBucket : Option String
  OutputBucket : Option String
  Notifications : Option Dict
deriving DecidableEq, Repr

/-- The module parameters after Ansible argument parsing: `name` is required
(a string); `input_bucket`, `output_bucket` and `role` are optional
(`None` when not supplied); `notifications` is modelled as a supplied dict. -/
structure ModuleParams where
  name : String
  input_bucket : Option String
  output_bucket : Option String
  notifications : Dict
  role : Option String
deriving DecidableEq, Repr

/-- `fix_up_notifications_dict`: rebuild the dict, retitling every key
(`new_dictionary[key.title()] = value` over the items in order). -/
def fix_up_notifications_dict (dictionary : Dict) : Dict :=
  dictionary.foldl (fun new_dictionary kv => dinsert new_dictionary (pythonTitle kv.1) kv.2) []

/-- `get_et_pipeline`: scan the pipeline listing and return the first
pipeline whose `Name` equals `name`, else `None`. -/
def get_et_pipeline : List Pipeline → String → Option Pipeline
  | [], _ => none
  | i :: rest, name =>
    if i.Name == some name then some i else get_et_pipeline rest name

/-- `et_pipeline_equal`: build a four-key dict from the pipeline and one
from the module parameters (with the notifications retitled) and compare
them with Python `==`.  `OutputBucket` is not checked. -/
def et_pipeline_equal (pipeline : Pipeline) (m : ModuleParams) : Bool :=
  let pipeline_dict : PyDict :=
    [("Role", pyOfOptStr pipeline.Role),
     ("Name", pyOfOptStr pipeline.Name),
     ("Notifications", pyOfOptDict pipeline.Notifications),
     ("InputBucket", pyOfOptStr pipeline.InputBucket)]
  let module_dict : PyDict :=
    [("Role", pyOfOptStr m.role),
     ("Name", .pystr m.name),
     ("Notifications", .pydict (fix_up_notifications_dict m.notifications)),
     ("InputBucket", pyOfOptStr m.input_bucket)]
  pyDictEq pipeline_dict module_dict

/-- The positional arguments of `connection.create_pipeline`. -/
structure CreateArgs where
  name : String
  input_bucket : Option String
  output_bucket : Option String
  role : Option String
  notifications : Dict
deriving DecidableEq, Repr

/-- The positional arguments of `connection.update_pipeline`; there is no
output-bucket field. -/
structure UpdateArgs where
  id : Option String
  name : String
  input_bucket : Option String
  role : Option String
  notifications : Dict
deriving DecidableEq, Repr

/-- One mutating remote call, as issued. -/
inductive RemoteCall
  | create : CreateArgs → RemoteCall
  | update : UpdateArgs → RemoteCall
  | delete : Option String → RemoteCall
deriving DecidableEq, Repr

/-- The boto connection: the current remote pipeline listing, and one
behaviour per mutating call, returning the remote listing after the call or
raising a `BotoServerError` with a message (`Except.error`). -/
structure Connection where
  pipelines : List Pipeline
  create_pipeline : CreateArgs → Except String (List Pipeline)
  update_pipeline : UpdateArgs → Except String (List Pipeline)
  delete_pipeline : Option String → Except String (List Pipeline)

/-- How an invocation terminates.  `exited changed name id` is
`module.exit_json` with the `changed` flag and, when the corresponding
keyword was passed at all, the (possibly `None`) values of its `name` and
`Id` keywords; `failed msg` is `module.fail_json(msg=...)`; `attrError` is
an uncaught Python `AttributeError` (attribute access on `None`). -/
inductive Outcome
  | exited : Bool → Option (Option String) → Option (Option String) → Outcome
  | failed : String → Outcome
  | attrError : Outcome
deriving DecidableEq, Repr

/-- `create_et_pipeline` (the `state=present` entry point): returns how the
invocation terminated together with the mutating remote calls issued, in
order. -/
def create_et_pipeline (connection : Connection) (m : ModuleParams) :
    Outcome × List RemoteCall :=
  let name := m.name
  let input_bucket := m.input_bucket
  let output_bucket := m.output_bucket
  let notifications := fix_up_notifications_dict m.notifications
  let role := m.role
  let pipeline := get_et_pipeline connection.pipelines name
  match pipeline with
  | none =>
    let args : CreateArgs := ⟨name, input_bucket, output_bucket, role, notifications⟩
    match connection.create_pipeline args with
    | .error e => (.failed e, [.create args])
    | .ok pipelines2 =>
      match get_et_pipeline pipelines2 name with
      | none => (.attrError, [.create args])
      | some result => (.exited true (some result.Name) (some result.Id), [.create args])
  | some p =>
    if et_pipeline_equal p m then
      (.exited false (some p.Name) (some p.Id), [])
    else
      let uargs : UpdateArgs := ⟨p.Id, name, input_bucket, role, notifications⟩
      match connection.update_pipeline uargs with
      | .error e => (.failed e, [.update uargs])
      | .ok _ => (.exited true (some p.Name) (some p.Id), [.update uargs])

/-- `delete_et_pipeline` (the `state=absent` entry point). -/
def delete_et_pipeline (connection : Connection) (m : ModuleParams) :
    Outcome × List RemoteCall :=
  match get_et_pipeline connection.pipelines m.name with
  | some pipeline =>
    match connection.delete_pipeline pipeline.Id with
    | .ok _ => (.exited true none (some pipeline.Id), [.delete pipeline.Id])
    | .error e => (.failed e, [.delete pipeline.Id])
  | none => (.exited false none none, [])

/-! ### Lemmas about the dictionary model -/

theorem dlookup_nil (k : String) : dlookup [] k = none := rfl

theorem dlookup_cons (kv : String × String) (rest : Dict) (k : String) :
    dlookup (kv :: rest) k = if kv.1 = k then some kv.2 else dlookup rest k := by
  by_cases h : kv.1 = k
  · rw [dlookup, if_pos (beq_iff_eq.mpr h), if_pos h]
  · rw [dlookup, if_neg (by simp [h]), if_neg h]

theorem dinsert_nil (k v : String) : dinsert [] k v = [(k, v)] := rfl

theorem dinsert_cons (kv : String × String) (rest : Dict) (k v : String) :
    dinsert (kv :: rest) k v =
      if kv.1 = k then (kv.1, v) :: rest else kv :: dinsert rest k v := by
  by_cases h : kv.1 = k
  · rw [dinsert, if_pos (beq_iff_eq.mpr h), if_pos h]
  · rw [dinsert, if_neg (by simp [h]), if_neg h]

theorem dlookup_dinsert (d : Dict) (k v k' : String) :
    dlookup (dinsert d k v) k' = if k' = k then some v else dlookup d k' := by
  induction d with
  | nil =>
    rw [dinsert_nil, dlookup_cons, dlookup_nil]
    by_cases h : k' = k
    · rw [if_pos h.symm, if_pos h]
    · rw [if_neg (fun hh => h hh.symm), if_neg h]
  | cons kv rest ih =>
    rw [dinsert_cons]
    by_cases hkk : kv.1 = k
    · rw [if_pos hkk, dlookup_cons, dlookup_cons]
      by_cases h : k' = k
      · rw [if_pos (hkk.trans h.symm), if_pos h]
      · have hne : ¬kv.1 = k' := fun hh => h (hh.symm.trans hkk)
        rw [if_neg hne, if_neg h, if_neg hne]
    · rw [if_neg hkk, dlookup_cons, dlookup_cons, ih]
      by_cases h : kv.1 = k'
      · have hne : ¬k' = k := fun hh => hkk (h.trans hh)
        rw [if_pos h, if_neg hne, if_pos h]
      · rw [if_neg h, if_neg h]

theorem mem_of_dlookup_eq_some {d : Dict} {k v : String}
    (h : dlookup d k = some v) : k ∈ d.map Prod.fst := by
  induction d with
  | nil => rw [dlookup_nil] at h; exact absurd h (by simp)
  | cons kv rest ih =>
    rw [dlookup_cons] at h
    by_cases hk : kv.1 = k
    · simp [← hk]
    · rw [if_neg hk] at h
      exact List.mem_cons_of_mem _ (ih h)

theorem keys_dinsert (d : Dict) (k v : String) :
    (dinsert d k v).map Prod.fst =
      if k ∈ d.map Prod.fst then d.map Prod.fst else d.map Prod.fst ++ [k] := by
  induction d with
  | nil => simp [dinsert_nil]
  | cons kv rest ih =>
    rw [dinsert_cons]
    by_cases hkk : kv.1 = k
    · rw [if_pos hkk, if_pos (by simp [hkk])]
      simp
    · rw [if_neg hkk, List.map_cons, List.map_cons, ih]
      by_cases hm : k ∈ rest.map Prod.fst
      · rw [if_pos hm, if_pos (by simp [hm])]
      · have hnm : ¬k ∈ kv.1 :: List.map Prod.fst rest := by
          rw [List.mem_cons]
          rintro (hh | hh)
          · exact hkk hh.symm
          · exact hm hh
        rw [if_neg hm, if_neg hnm, List.cons_append]

theorem nodup_keys_dinsert (d : Dict) (k v : String)
    (h : (d.map Prod.fst).Nodup) : ((dinsert d k v).map Prod.fst).Nodup := by
  rw [keys_dinsert]
  by_cases hm : k ∈ d.map Prod.fst
  · rwa [if_pos hm]
  · rw [if_neg hm]
    simp [List.nodup_append, h, hm]

theorem mem_keys_dinsert {d : Dict} {k v k' : String}
    (h : k' ∈ (dinsert d k v).map Prod.fst) :
    k' ∈ d.map Prod.fst ∨ k' = k := by
  rw [keys_dinsert] at h
  by_cases hm : k ∈ d.map Prod.fst
  · rw [if_pos hm] at h; exact Or.inl h
  · rw [if_neg hm] at h
    rcases List.mem_append.mp h with h | h
    · exact Or.inl h
    · exact Or.inr (List.mem_singleton.mp h)

/-- Proof helper: the value bound to key `k` when a dictionary's items are
written back with retitled keys — the value of the last item whose retitled
key is `k`. -/
def titledLast (d : Dict) (k : String) : Option String :=
  match d with
  | [] => none
  | kv :: rest =>
    match titledLast rest k with
    | some v => some v
    | none => if pythonTitle kv.1 = k then some kv.2 else none

theorem dlookup_foldl_dinsert (l : List (String × String)) (acc : Dict) (k : String) :
    dlookup (l.foldl (fun new_dictionary kv =>
        dinsert new_dictionary (pythonTitle kv.1) kv.2) acc) k =
      match titledLast l k with
      | some v => some v
      | none => dlookup acc k := by
  induction l generalizing acc with
  | nil => rfl
  | cons kv rest ih =>
    rw [List.foldl_cons, ih]
    cases h : titledLast rest k with
    | some v => simp [titledLast, h]
    | none =>
      simp only [titledLast, h]
      rw [dlookup_dinsert]
      by_cases hk : k = pythonTitle kv.1
      · rw [if_pos hk, if_pos hk.symm]
      · rw [if_neg hk, if_neg (fun hh => hk hh.symm)]

theorem dlookup_fix_up (d : Dict) (k : String) :
    dlookup (fix_up_notifications_dict d) k = titledLast d k := by
  unfold fix_up_notifications_dict
  rw [dlookup_foldl_dinsert]
  cases h : titledLast d k <;> rfl

theorem keys_foldl_titled (l : List (String × String)) (acc : Dict)
    (hacc : ∀ k' ∈ acc.map Prod.fst, pythonTitle k' = k') :
    ∀ k' ∈ ((l.foldl (fun new_dictionary kv =>
        dinsert new_dictionary (pythonTitle kv.1) kv.2) acc).map Prod.fst),
      pythonTitle k' = k' := by
  induction l generalizing acc with
  | nil => exact hacc
  | cons kv rest ih =>
    rw [List.foldl_cons]
    apply ih
    intro k' hk'
    rcases mem_keys_dinsert hk' with h | h
    · exact hacc k' h
    · rw [h]; exact pythonTitle_idem kv.1

theorem keys_fix_up_titled (d : Dict) :
    ∀ k' ∈ ((fix_up_notifications_dict d).map Prod.fst), pythonTitle k' = k' := by
  unfold fix_up_notifications_dict
  exact keys_foldl_titled d [] (by intro k' h; exact absurd h (by simp))

theorem nodup_keys_foldl (l : List (String × String)) (acc : Dict)
    (hacc : (acc.map Prod.fst).Nodup) :
    ((l.foldl (fun new_dictionary kv =>
        dinsert new_dictionary (pythonTitle kv.1) kv.2) acc).map Prod.fst).Nodup := by
  induction l generalizing acc with
  | nil => exact hacc
  | cons kv rest ih =>
    rw [List.foldl_cons]
    exact ih _ (nodup_keys_dinsert _ _ _ hacc)

theorem nodup_keys_fix_up (d : Dict) :
    ((fix_up_notifications_dict d).map Prod.fst).Nodup := by
  unfold fix_up_notifications_dict
  exact nodup_keys_foldl d [] (by simp)

theorem titledLast_eq_dlookup (d : Dict)
    (ht : ∀ k' ∈ d.map Prod.fst, pythonTitle k' = k')
    (hn : (d.map Prod.fst).Nodup) (k : String) :
    titledLast d k = dlookup d k := by
  induction d with
  | nil => rfl
  | cons kv rest ih =>
    rw [List.map_cons, List.nodup_cons] at hn
    have htr : ∀ k' ∈ rest.map Prod.fst, pythonTitle k' = k' := by
      intro k' h; exact ht k' (by simp [h])
    have hhead : pythonTitle kv.1 = kv.1 := ht kv.1 (by simp)
    rw [dlookup_cons, titledLast, ih htr hn.2, hhead]
    cases hd : dlookup rest k with
    | some v =>
      have hk : ¬kv.1 = k := by
        intro hh
        exact hn.1 (by rw [hh]; exact mem_of_dlookup_eq_some hd)
      simp only [if_neg hk]
    | none => rfl

theorem dictEq_of_lookup_eq {a b : Dict} (h : ∀ k, dlookup a k = dlookup b k) :
    dictEq a b = true := by
  unfold dictEq
  rw [Bool.and_eq_true, List.all_eq_true, List.all_eq_true]
  constructor
  · intro kv _; rw [h kv.1]; exact beq_self_eq_true _
  · intro kv _; rw [h kv.1]; exact beq_self_eq_true _

theorem dlookup_fix_up_fix_up (d : Dict) (k : String) :
    dlookup (fix_up_notifications_dict (fix_up_notifications_dict d)) k =
      dlookup (fix_up_notifications_dict d) k := by
  rw [dlookup_fix_up,
    titledLast_eq_dlookup _ (keys_fix_up_titled d) (nodup_keys_fix_up d)]

/-! ### Characterization of `et_pipeline_equal` -/

theorem et_pipeline_equal_unfold (p : Pipeline) (m : ModuleParams) :
    et_pipeline_equal p m =
      ((pyEq (pyOfOptStr p.Role) (pyOfOptStr m.role) &&
        (pyEq (pyOfOptStr p.Name) (PyVal.pystr m.name) &&
         (pyEq (pyOfOptDict p.Notifications)
            (PyVal.pydict (fix_up_notifications_dict m.notifications)) &&
          (pyEq (pyOfOptStr p.InputBucket) (pyOfOptStr m.input_bucket) && true)))) &&
       (pyEq (pyOfOptStr p.Role) (pyOfOptStr m.role) &&
        (pyEq (pyOfOptStr p.Name) (PyVal.pystr m.name) &&
         (pyEq (pyOfOptDict p.Notifications)
            (PyVal.pydict (fix_up_notifications_dict m.notifications)) &&
          (pyEq (pyOfOptStr p.InputBucket) (pyOfOptStr m.input_bucket) && true))))) := rfl

theorem pyEq_optStr_iff (a b : Option String) :
    pyEq (pyOfOptStr a) (pyOfOptStr b) = true ↔ a = b := by
  cases a <;> cases b <;> simp [pyOfOptStr, pyEq]

theorem pyEq_optStr_pystr_iff (a : Option String) (s : String) :
    pyEq (pyOfOptStr a) (PyVal.pystr s) = true ↔ a = some s := by
  cases a <;> simp [pyOfOptStr, pyEq]

theorem pyEq_optDict_pydict_iff (a : Option Dict) (d : Dict) :
    pyEq (pyOfOptDict a) (PyVal.pydict d) = true ↔
      ∃ nd, a = some nd ∧ dictEq nd d = true := by
  cases a <;> simp [pyOfOptDict, pyEq]

theorem et_pipeline_equal_true_iff (p : Pipeline) (m : ModuleParams) :
    et_pipeline_equal p m = true ↔
      (p.Role = m.role ∧ p.Name = some m.name ∧
       (∃ nd, p.Notifications = some nd ∧
          dictEq nd (fix_up_notifications_dict m.notifications) = true) ∧
       p.InputBucket = m.input_bucket) := by
  rw [et_pipeline_equal_unfold, Bool.and_self, Bool.and_true]
  simp only [Bool.and_eq_true, pyEq_optStr_iff, pyEq_optStr_pystr_iff,
    pyEq_optDict_pydict_iff]

/-! ### Evaluation of the two entry points, branch by branch -/

theorem create_present_equal (connection : Connection) (m : ModuleParams) (p : Pipeline)
    (hget : get_et_pipeline connection.pipelines m.name = some p)
    (heq : et_pipeline_equal p m = true) :
    create_et_pipeline connection m =
      (Outcome.exited false (some p.Name) (some p.Id), []) := by
  simp [create_et_pipeline, hget, heq]

theorem create_present_unequal_calls (connection : Connection) (m : ModuleParams) (p : Pipeline)
    (hget : get_et_pipeline connection.pipelines m.name = some p)
    (hneq : et_pipeline_equal p m = false) :
    (create_et_pipeline connection m).2 =
      [RemoteCall.update ⟨p.Id, m.name, m.input_bucket, m.role,
        fix_up_notifications_dict m.notifications⟩] := by
  simp only [create_et_pipeline, hget, hneq]
  cases connection.update_pipeline ⟨p.Id, m.name, m.input_bucket, m.role,
      fix_up_notifications_dict m.notifications⟩ <;> rfl

theorem create_present_unequal_ok (connection : Connection) (m : ModuleParams)
    (p : Pipeline) (l' : List Pipeline)
    (hget : get_et_pipeline connection.pipelines m.name = some p)
    (hneq : et_pipeline_equal p m = false)
    (hok : connection.update_pipeline ⟨p.Id, m.name, m.input_bucket, m.role,
        fix_up_notifications_dict m.notifications⟩ = .ok l') :
    create_et_pipeline connection m =
      (Outcome.exited true (some p.Name) (some p.Id),
       [RemoteCall.update ⟨p.Id, m.name, m.input_bucket, m.role,
         fix_up_notifications_dict m.notifications⟩]) := by
  simp [create_et_pipeline, hget, hneq, hok]

theorem create_present_unequal_error (connection : Connection) (m : ModuleParams)
    (p : Pipeline) (e : String)
    (hget : get_et_pipeline connection.pipelines m.name = some p)
    (hneq : et_pipeline_equal p m = false)
    (herr : connection.update_pipeline ⟨p.Id, m.name, m.input_bucket, m.role,
        fix_up_notifications_dict m.notifications⟩ = .error e) :
    create_et_pipeline connection m =
      (Outcome.failed e,
       [RemoteCall.update ⟨p.Id, m.name, m.input_bucket, m.role,
         fix_up_notifications_dict m.notifications⟩]) := by
  simp [create_et_pipeline, hget, hneq, herr]

theorem create_absent_ok_found (connection : Connection) (m : ModuleParams)
    (l' : List Pipeline) (p : Pipeline)
    (hget : get_et_pipeline connection.pipelines m.name = none)
    (hok : connection.create_pipeline ⟨m.name, m.input_bucket, m.output_bucket, m.role,
        fix_up_notifications_dict m.notifications⟩ = .ok l')
    (href : get_et_pipeline l' m.name = some p) :
    create_et_pipeline connection m =
      (Outcome.exited true (some p.Name) (some p.Id),
       [RemoteCall.create ⟨m.name, m.input_bucket, m.output_bucket, m.role,
         fix_up_notifications_dict m.notifications⟩]) := by
  simp [create_et_pipeline, hget, hok, href]

theorem create_absent_ok_notfound (connection : Connection) (m : ModuleParams)
    (l' : List Pipeline)
    (hget : get_et_pipeline connection.pipelines m.name = none)
    (hok : connection.create_pipeline ⟨m.name, m.input_bucket, m.output_bucket, m.role,
        fix_up_notifications_dict m.notifications⟩ = .ok l')
    (href : get_et_pipeline l' m.name = none) :
    create_et_pipeline connection m =
      (Outcome.attrError,
       [RemoteCall.create ⟨m.name, m.input_bucket, m.output_bucket, m.role,
         fix_up_notifications_dict m.notifications⟩]) := by
  simp [create_et_pipeline, hget, hok, href]

theorem create_absent_error (connection : Connection) (m : ModuleParams) (e : String)
    (hget : get_et_pipeline connection.pipelines m.name = none)
    (herr : connection.create_pipeline ⟨m.name, m.input_bucket, m.output_bucket, m.role,
        fix_up_notifications_dict m.notifications⟩ = .error e) :
    create_et_pipeline connection m =
      (Outcome.failed e,
       [RemoteCall.create ⟨m.name, m.input_bucket, m.output_bucket, m.role,
         fix_up_notifications_dict m.notifications⟩]) := by
  simp [create_et_pipeline, hget, herr]

theorem delete_absent (connection : Connection) (m : ModuleParams)
    (hget : get_et_pipeline connection.pipelines m.name = none) :
    delete_et_pipeline connection m = (Outcome.exited false none none, []) := by
  simp [delete_et_pipeline, hget]

theorem delete_present_calls (connection : Connection) (m : ModuleParams) (p : Pipeline)
    (hget : get_et_pipeline connection.pipelines m.name = some p) :
    (delete_et_pipeline connection m).2 = [RemoteCall.delete p.Id] := by
  simp only [delete_et_pipeline, hget]
  cases connection.delete_pipeline p.Id <;> rfl

theorem delete_present_ok (connection : Connection) (m : ModuleParams) (p : Pipeline)
    (l' : List Pipeline)
    (hget : get_et_pipeline connection.pipelines m.name = some p)
    (hok : connection.delete_pipeline p.Id = .ok l') :
    delete_et_pipeline connection m =
      (Outcome.exited true none (some p.Id), [RemoteCall.delete p.Id]) := by
  simp [delete_et_pipeline, hget, hok]

theorem delete_present_error (connection : Connection) (m : ModuleParams) (p : Pipeline)
    (e : String)
    (hget : get_et_pipeline connection.pipelines m.name = some p)
    (herr : connection.delete_pipeline p.Id = .error e) :
    delete_et_pipeline connection m =
      (Outcome.failed e, [RemoteCall.delete p.Id]) := by
  simp [delete_et_pipeline, hget, herr]

theorem et_pipeline_equal_ignores_output_bucket (p : Pipeline) (m : ModuleParams)
    (ob ob' : Option String) :
    et_pipeline_equal
      (Pipeline.mk p.Id p.Name p.Role p.InputBucket ob p.Notifications)
      (ModuleParams.mk m.name m.input_bucket ob' m.notifications m.role) =
    et_pipeline_equal p m := rfl

theorem bool_eq_false_of_ne_true {b : Bool} (h : ¬b = true) : b = false := by
  cases b with
  | true => exact absurd rfl h
  | false => rfl

theorem create_frame_output_bucket (connection : Connection) (m : ModuleParams)
    (p : Pipeline) (ob : Option String)
    (hget : get_et_pipeline connection.pipelines m.name = some p) :
    create_et_pipeline connection
      (ModuleParams.mk m.name m.input_bucket ob m.notifications m.role) =
    create_et_pipeline connection m := by
  by_cases he : et_pipeline_equal p m = true
  · rw [create_present_equal connection
      (ModuleParams.mk m.name m.input_bucket ob m.notifications m.role) p hget he,
      create_present_equal connection m p hget he]
  · have hne : et_pipeline_equal p m = false := bool_eq_false_of_ne_true he
    cases hu : connection.update_pipeline ⟨p.Id, m.name, m.input_bucket, m.role,
        fix_up_notifications_dict m.notifications⟩ with
    | ok l' =>
      rw [create_present_unequal_ok connection
          (ModuleParams.mk m.name m.input_bucket ob m.notifications m.role) p l' hget hne hu,
        create_present_unequal_ok connection m p l' hget hne hu]
    | error e =>
      rw [create_present_unequal_error connection
          (ModuleParams.mk m.name m.input_bucket ob m.notifications m.role) p e hget hne hu,
        create_present_unequal_error connection m p e hget hne hu]

/-! ### Concrete fixtures (used by the closed instance theorems below) -/

/-- The module-side notifications of the spec scenario. -/
def notifParams : Dict :=
  [("progressing", ""), ("completed", "arn:1"), ("warning", "arn:1"), ("error", "arn:1")]

/-- The same notifications in the remote schema's capitalization. -/
def notifRemote : Dict :=
  [("Progressing", ""), ("Completed", "arn:1"), ("Warning", "arn:1"), ("Error", "arn:1")]

/-- An existing remote pipeline named `prod`. -/
def prodPipeline : Pipeline :=
  ⟨some "id-1", some "prod", some "arn:role", some "in", some "out", some notifRemote⟩

/-- Desired state matching `prodPipeline` on role, name, notifications and
input bucket, with a different output bucket. -/
def prodParams : ModuleParams :=
  ⟨"prod", some "in", some "out2", notifParams, some "arn:role"⟩

/-- Desired state like `prodParams` but with a different role. -/
def roleParams : ModuleParams :=
  ⟨"prod", some "in", some "out2", notifParams, some "arn:role2"⟩

/-- The pipeline the remote side assigns on creation. -/
def newPipeline : Pipeline :=
  ⟨some "id-9", some "prod", some "arn:role", some "in", some "out", some notifRemote⟩

/-- No pipelines; a create call succeeds and the listing then shows
`newPipeline`. -/
def absentConn : Connection :=
  ⟨[], fun _ => .ok [newPipeline], fun _ => .error "x", fun _ => .error "x"⟩

/-- `prod` exists; every mutating call would fail (none may be issued). -/
def eqConn : Connection :=
  ⟨[prodPipeline], fun _ => .error "boom", fun _ => .error "boom", fun _ => .error "boom"⟩

/-- `prod` exists; the update call succeeds. -/
def updConn : Connection :=
  ⟨[prodPipeline], fun _ => .error "x", fun _ => .ok [], fun _ => .error "x"⟩

/-- `prod` exists; the delete call succeeds. -/
def delConn : Connection :=
  ⟨[prodPipeline], fun _ => .error "x", fun _ => .error "x", fun _ => .ok []⟩

/-- No pipelines; the create call succeeds but the re-fetch still finds
nothing. -/
def lostConn : Connection :=
  ⟨[], fun _ => .ok [], fun _ => .error "x", fun _ => .error "x"⟩

/-- No pipelines; the create call fails. -/
def createErrConn : Connection :=
  ⟨[], fun _ => .error "boom-create", fun _ => .error "x", fun _ => .error "x"⟩

/-- `prod` exists; the update call fails. -/
def updErrConn : Connection :=
  ⟨[prodPipeline], fun _ => .error "x", fun _ => .error "boom-update", fun _ => .error "x"⟩

/-- `prod` exists; the delete call fails. -/
def delErrConn : Connection :=
  ⟨[prodPipeline], fun _ => .error "x", fun _ => .error "x", fun _ => .error "boom-delete"⟩

/-! ### The claims -/

/-- C1: when a remote pipeline with the desired name exists and its role,
name, normalized notifications and input bucket all equal the desired
values, `create_et_pipeline` (state=present) issues no create and no update
call, reports `changed=false`, and returns the existing pipeline's Name and
Id unchanged. -/
theorem claim1_present_equal_no_op (connection : Connection) (m : ModuleParams)
    (p : Pipeline) (nd : Dict)
    (hget : get_et_pipeline connection.pipelines m.name = some p)
    (hrole : p.Role = m.role)
    (hname : p.Name = some m.name)
    (hnd : p.Notifications = some nd)
    (hnotif : dictEq nd (fix_up_notifications_dict m.notifications) = true)
    (hin : p.InputBucket = m.input_bucket) :
    create_et_pipeline connection m =
      (Outcome.exited false (some p.Name) (some p.Id), []) :=
  create_present_equal connection m p hget
    ((et_pipeline_equal_true_iff p m).mpr ⟨hrole, hname, ⟨nd, hnd, hnotif⟩, hin⟩)

theorem claim1_witness :
    create_et_pipeline eqConn prodParams =
      (Outcome.exited false (some (some "prod")) (some (some "id-1")), []) :=
  claim1_present_equal_no_op eqConn prodParams prodPipeline notifRemote
    (by rfl) (by rfl) (by rfl) (by rfl) (by decide) (by rfl)

/-- C2: when no remote pipeline with the desired name exists,
`create_et_pipeline` calls create with exactly
(name, input_bucket, output_bucket, role, normalized notifications),
re-fetches the pipeline by name, and reports `changed=true` with the
re-fetched pipeline's Name and Id. -/
theorem claim2_absent_create (connection : Connection) (m : ModuleParams)
    (l' : List Pipeline) (p : Pipeline)
    (hget : get_et_pipeline connection.pipelines m.name = none)
    (hok : connection.create_pipeline ⟨m.name, m.input_bucket, m.output_bucket, m.role,
        fix_up_notifications_dict m.notifications⟩ = .ok l')
    (href : get_et_pipeline l' m.name = some p) :
    create_et_pipeline connection m =
      (Outcome.exited true (some p.Name) (some p.Id),
       [RemoteCall.create ⟨m.name, m.input_bucket, m.output_bucket, m.role,
         fix_up_notifications_dict m.notifications⟩]) :=
  create_absent_ok_found connection m l' p hget hok href

theorem claim2_witness :
    create_et_pipeline absentConn prodParams =
      (Outcome.exited true (some (some "prod")) (some (some "id-9")),
       [RemoteCall.create ⟨"prod", some "in", some "out2", some "arn:role", notifRemote⟩]) :=
  claim2_absent_create absentConn prodParams [newPipeline] newPipeline
    (by rfl) (by rfl) (by rfl)

/-- C3: with lifecycle absent, `delete_et_pipeline` issues no delete call
and reports `changed=false` when no pipeline with the desired name exists;
when one exists it calls delete with that pipeline's id (whatever the call
returns) and, when the call succeeds, reports `changed=true`. -/
theorem claim3_absent_lifecycle (connection : Connection) (m : ModuleParams) :
    (get_et_pipeline connection.pipelines m.name = none →
      delete_et_pipeline connection m = (Outcome.exited false none none, [])) ∧
    (∀ p, get_et_pipeline connection.pipelines m.name = some p →
      (delete_et_pipeline connection m).2 = [RemoteCall.delete p.Id]) ∧
    (∀ p l', get_et_pipeline connection.pipelines m.name = some p →
      connection.delete_pipeline p.Id = .ok l' →
      delete_et_pipeline connection m =
        (Outcome.exited true none (some p.Id), [RemoteCall.delete p.Id])) :=
  ⟨fun hget => delete_absent connection m hget,
   fun p hget => delete_present_calls connection m p hget,
   fun p l' hget hok => delete_present_ok connection m p l' hget hok⟩

theorem claim3_witness :
    delete_et_pipeline lostConn prodParams = (Outcome.exited false none none, []) ∧
    delete_et_pipeline delConn prodParams =
      (Outcome.exited true none (some (some "id-1")), [RemoteCall.delete (some "id-1")]) :=
  ⟨(claim3_absent_lifecycle lostConn prodParams).1 (by rfl),
   (claim3_absent_lifecycle delConn prodParams).2.2 prodPipeline [] (by rfl) (by rfl)⟩

/-- C4: on the update branch (pipeline present but not equal), the update
call is issued with exactly (id, name, input_bucket, role, normalized
notifications) — the `UpdateArgs` record has no output-bucket component —
`changed=true` is reported when the call succeeds, and the whole execution
is unchanged under any change of the desired output bucket. -/
theorem claim4_update_never_sends_output_bucket (connection : Connection)
    (m : ModuleParams) (p : Pipeline)
    (hget : get_et_pipeline connection.pipelines m.name = some p)
    (hneq : et_pipeline_equal p m = false) :
    (create_et_pipeline connection m).2 =
      [RemoteCall.update ⟨p.Id, m.name, m.input_bucket, m.role,
        fix_up_notifications_dict m.notifications⟩] ∧
    (∀ l', connection.update_pipeline ⟨p.Id, m.name, m.input_bucket, m.role,
        fix_up_notifications_dict m.notifications⟩ = .ok l' →
      create_et_pipeline connection m =
        (Outcome.exited true (some p.Name) (some p.Id),
         [RemoteCall.update ⟨p.Id, m.name, m.input_bucket, m.role,
           fix_up_notifications_dict m.notifications⟩])) ∧
    (∀ ob, create_et_pipeline connection
        (ModuleParams.mk m.name m.input_bucket ob m.notifications m.role) =
      create_et_pipeline connection m) :=
  ⟨create_present_unequal_calls connection m p hget hneq,
   fun l' hok => create_present_unequal_ok connection m p l' hget hneq hok,
   fun ob => create_frame_output_bucket connection m p ob hget⟩

theorem claim4_witness :
    (create_et_pipeline updConn roleParams).2 =
      [RemoteCall.update ⟨some "id-1", "prod", some "in", some "arn:role2", notifRemote⟩] ∧
    create_et_pipeline updConn roleParams =
      (Outcome.exited true (some (some "prod")) (some (some "id-1")),
       [RemoteCall.update ⟨some "id-1", "prod", some "in", some "arn:role2", notifRemote⟩]) ∧
    create_et_pipeline updConn
        (ModuleParams.mk "prod" (some "in") (some "other-bucket") notifParams (some "arn:role2")) =
      create_et_pipeline updConn roleParams :=
  ⟨(claim4_update_never_sends_output_bucket updConn roleParams prodPipeline
      (by rfl) (by decide)).1,
   (claim4_update_never_sends_output_bucket updConn roleParams prodPipeline
      (by rfl) (by decide)).2.1 [] (by rfl),
   (claim4_update_never_sends_output_bucket updConn roleParams prodPipeline
      (by rfl) (by decide)).2.2 (some "other-bucket")⟩

/-- C5: `et_pipeline_equal` holds exactly when the four fields Role, Name,
Notifications (module side normalized) and InputBucket agree; it is
invariant under both output-bucket fields, so an output-bucket difference
alone never yields `changed=true` on an otherwise-equal pipeline. -/
theorem claim5_equal_exactly_four_fields (p : Pipeline) (m : ModuleParams) :
    (et_pipeline_equal p m = true ↔
      (p.Role = m.role ∧ p.Name = some m.name ∧
       (∃ nd, p.Notifications = some nd ∧
          dictEq nd (fix_up_notifications_dict m.notifications) = true) ∧
       p.InputBucket = m.input_bucket)) ∧
    (∀ ob ob', et_pipeline_equal
        (Pipeline.mk p.Id p.Name p.Role p.InputBucket ob p.Notifications)
        (ModuleParams.mk m.name m.input_bucket ob' m.notifications m.role) =
      et_pipeline_equal p m) ∧
    (∀ connection : Connection,
      get_et_pipeline connection.pipelines m.name = some p →
      et_pipeline_equal p m = true →
      (create_et_pipeline connection m).1 =
        Outcome.exited false (some p.Name) (some p.Id)) := by
  refine ⟨et_pipeline_equal_true_iff p m, fun ob ob' => rfl,
    fun connection hget heq => ?_⟩
  rw [create_present_equal connection m p hget heq]

theorem claim5_witness :
    et_pipeline_equal prodPipeline prodParams = true ∧
    et_pipeline_equal
        (Pipeline.mk prodPipeline.Id prodPipeline.Name prodPipeline.Role
          prodPipeline.InputBucket (some "zzz") prodPipeline.Notifications)
        (ModuleParams.mk prodParams.name prodParams.input_bucket (some "yyy")
          prodParams.notifications prodParams.role) =
      et_pipeline_equal prodPipeline prodParams ∧
    (create_et_pipeline eqConn prodParams).1 =
      Outcome.exited false (some (some "prod")) (some (some "id-1")) :=
  ⟨(claim5_equal_exactly_four_fields prodPipeline prodParams).1.mpr
      ⟨rfl, rfl, ⟨notifRemote, rfl, by decide⟩, rfl⟩,
   (claim5_equal_exactly_four_fields prodPipeline prodParams).2.1 (some "zzz") (some "yyy"),
   (claim5_equal_exactly_four_fields prodPipeline prodParams).2.2 eqConn (by rfl) (by decide)⟩

/-- C6: notification-key normalization is idempotent under Python dict
equality, and every casing of the four recognized keys is mapped to the
first-letter-capitalized form. -/
theorem claim6_normalize_idem_case_insensitive :
    (∀ d : Dict, dictEq (fix_up_notifications_dict (fix_up_notifications_dict d))
        (fix_up_notifications_dict d) = true) ∧
    (∀ s : String, pythonLower s = "progressing" → pythonTitle s = "Progressing") ∧
    (∀ s : String, pythonLower s = "completed" → pythonTitle s = "Completed") ∧
    (∀ s : String, pythonLower s = "warning" → pythonTitle s = "Warning") ∧
    (∀ s : String, pythonLower s = "error" → pythonTitle s = "Error") := by
  refine ⟨fun d => dictEq_of_lookup_eq (fun k => dlookup_fix_up_fix_up d k),
    ?_, ?_, ?_, ?_⟩
  · intro s h
    rw [← pythonTitle_lower s, h]
    decide
  · intro s h
    rw [← pythonTitle_lower s, h]
    decide
  · intro s h
    rw [← pythonTitle_lower s, h]
    decide
  · intro s h
    rw [← pythonTitle_lower s, h]
    decide

theorem claim6_witness :
    dictEq
      (fix_up_notifications_dict (fix_up_notifications_dict
        [("wArNiNg", "a"), ("ERROR", "b")]))
      (fix_up_notifications_dict [("wArNiNg", "a"), ("ERROR", "b")]) = true ∧
    pythonTitle "pRoGrEsSiNg" = "Progressing" ∧
    pythonTitle "COMPLETED" = "Completed" ∧
    pythonTitle "warning" = "Warning" ∧
    pythonTitle "eRRoR" = "Error" :=
  ⟨claim6_normalize_idem_case_insensitive.1 [("wArNiNg", "a"), ("ERROR", "b")],
   claim6_normalize_idem_case_insensitive.2.1 "pRoGrEsSiNg" (by decide),
   claim6_normalize_idem_case_insensitive.2.2.1 "COMPLETED" (by decide),
   claim6_normalize_idem_case_insensitive.2.2.2.1 "warning" (by decide),
   claim6_normalize_idem_case_insensitive.2.2.2.2 "eRRoR" (by decide)⟩

/-- C7: `get_et_pipeline` returns the first pipeline, in list order, whose
Name equals the requested name (it is `List.find?` on that predicate);
`None` exactly when no pipeline's Name matches; and with duplicates the
earliest match is returned. -/
theorem claim7_first_name_match :
    (∀ (l : List Pipeline) (n : String),
      get_et_pipeline l n = l.find? (fun p => p.Name == some n)) ∧
    (∀ (l : List Pipeline) (n : String),
      get_et_pipeline l n = none ↔ ∀ p ∈ l, ¬p.Name = some n) ∧
    (∀ (l1 : List Pipeline) (p : Pipeline) (l2 : List Pipeline) (n : String),
      (∀ q ∈ l1, ¬q.Name = some n) → p.Name = some n →
      get_et_pipeline (l1 ++ p :: l2) n = some p) := by
  refine ⟨?_, ?_, ?_⟩
  · intro l n
    induction l with
    | nil => rfl
    | cons i rest ih =>
      by_cases hb : i.Name = some n
      · rw [get_et_pipeline, if_pos (by simp [hb]),
          List.find?_cons_of_pos _ (by simpa using hb)]
      · rw [get_et_pipeline, if_neg (by simp [hb]),
          List.find?_cons_of_neg _ (by simpa using hb), ih]
  · intro l n
    induction l with
    | nil =>
      constructor
      · intro _ p hp
        exact absurd hp (List.not_mem_nil p)
      · intro _
        rfl
    | cons i rest ih =>
      by_cases hb : i.Name = some n
      · rw [get_et_pipeline, if_pos (by simp [hb])]
        constructor
        · intro h
          exact Option.noConfusion h
        · intro h
          exact absurd hb (h i (List.mem_cons_self i rest))
      · rw [get_et_pipeline, if_neg (by simp [hb]), ih]
        constructor
        · intro h p hp
          rcases List.mem_cons.mp hp with hpi | hp'
          · rw [hpi]; exact hb
          · exact h p hp'
        · intro h p hp
          exact h p (List.mem_cons_of_mem i hp)
  · intro l1 p l2 n
    induction l1 with
    | nil =>
      intro _ hp
      rw [List.nil_append, get_et_pipeline, if_pos (by simp [hp])]
    | cons q rest ih =>
      intro h1 hp
      rw [List.cons_append, get_et_pipeline,
        if_neg (by simp [h1 q (List.mem_cons_self q rest)])]
      exact ih (fun q' hq' => h1 q' (List.mem_cons_of_mem q hq')) hp

theorem claim7_witness :
    get_et_pipeline [newPipeline] "prod" =
      List.find? (fun p => p.Name == some "prod") [newPipeline] ∧
    (get_et_pipeline [newPipeline] "other" = none ↔
      ∀ p ∈ [newPipeline], ¬p.Name = some "other") ∧
    get_et_pipeline ([newPipeline] ++ prodPipeline :: [newPipeline]) "other2" = none ∧
    get_et_pipeline ([] ++ prodPipeline :: [newPipeline]) "prod" = some prodPipeline :=
  ⟨claim7_first_name_match.1 [newPipeline] "prod",
   claim7_first_name_match.2.1 [newPipeline] "other",
   (claim7_first_name_match.2.1 ([newPipeline] ++ prodPipeline :: [newPipeline]) "other2").mpr
     (by decide),
   claim7_first_name_match.2.2 [] prodPipeline [newPipeline] "prod"
     (by intro q hq; exact absurd hq (List.not_mem_nil q)) (by rfl)⟩

/-- C8: a remote-API error during create, update or delete aborts the
invocation: the result is `fail_json` carrying the error message verbatim,
and the single failing call is the only mutating call issued (no retry, no
further mutation). -/
theorem claim8_remote_error_aborts (connection : Connection) (m : ModuleParams)
    (e : String) :
    (get_et_pipeline connection.pipelines m.name = none →
      connection.create_pipeline ⟨m.name, m.input_bucket, m.output_bucket, m.role,
        fix_up_notifications_dict m.notifications⟩ = .error e →
      create_et_pipeline connection m =
        (Outcome.failed e, [RemoteCall.create ⟨m.name, m.input_bucket, m.output_bucket,
          m.role, fix_up_notifications_dict m.notifications⟩])) ∧
    (∀ p, get_et_pipeline connection.pipelines m.name = some p →
      et_pipeline_equal p m = false →
      connection.update_pipeline ⟨p.Id, m.name, m.input_bucket, m.role,
        fix_up_notifications_dict m.notifications⟩ = .error e →
      create_et_pipeline connection m =
        (Outcome.failed e, [RemoteCall.update ⟨p.Id, m.name, m.input_bucket, m.role,
          fix_up_notifications_dict m.notifications⟩])) ∧
    (∀ p, get_et_pipeline connection.pipelines m.name = some p →
      connection.delete_pipeline p.Id = .error e →
      delete_et_pipeline connection m =
        (Outcome.failed e, [RemoteCall.delete p.Id])) :=
  ⟨fun hget herr => create_absent_error connection m e hget herr,
   fun p hget hneq herr => create_present_unequal_error connection m p e hget hneq herr,
   fun p hget herr => delete_present_error connection m p e hget herr⟩

theorem claim8_witness :
    create_et_pipeline createErrConn prodParams =
      (Outcome.failed "boom-create",
       [RemoteCall.create ⟨"prod", some "in", some "out2", some "arn:role", notifRemote⟩]) ∧
    create_et_pipeline updErrConn roleParams =
      (Outcome.failed "boom-update",
       [RemoteCall.update ⟨some "id-1", "prod", some "in", some "arn:role2", notifRemote⟩]) ∧
    delete_et_pipeline delErrConn prodParams =
      (Outcome.failed "boom-delete", [RemoteCall.delete (some "id-1")]) :=
  ⟨(claim8_remote_error_aborts createErrConn prodParams "boom-create").1 (by rfl) (by rfl),
   (claim8_remote_error_aborts updErrConn roleParams "boom-update").2.1 prodPipeline
     (by rfl) (by decide) (by rfl),
   (claim8_remote_error_aborts delErrConn prodParams "boom-delete").2.2 prodPipeline
     (by rfl) (by rfl)⟩

/-- C9 counterexample: a successful delete of the existing pipeline `prod`
exits with `changed=true` and the `Id` keyword, but the `name` keyword is
not passed at all (the second component of the exit is `none`), so the
claim that a successful delete reports both the name and the id is false
on the code. -/
theorem claim9_counterexample :
    delete_et_pipeline delConn prodParams =
      (Outcome.exited true none (some (some "id-1")), [RemoteCall.delete (some "id-1")]) := by
  rfl

/-- C9 (amended): every successful invocation reports `changed`; the three
`state=present` success paths also report name and Id; a successful delete
reports the Id but not the name; the absent-with-nothing-to-delete case
reports `changed=false` with neither name nor id. -/
theorem claim9_amended_success_outputs (connection : Connection) (m : ModuleParams) :
    (∀ p, get_et_pipeline connection.pipelines m.name = some p →
      et_pipeline_equal p m = true →
      (create_et_pipeline connection m).1 =
        Outcome.exited false (some p.Name) (some p.Id)) ∧
    (∀ p l', get_et_pipeline connection.pipelines m.name = some p →
      et_pipeline_equal p m = false →
      connection.update_pipeline ⟨p.Id, m.name, m.input_bucket, m.role,
        fix_up_notifications_dict m.notifications⟩ = .ok l' →
      (create_et_pipeline connection m).1 =
        Outcome.exited true (some p.Name) (some p.Id)) ∧
    (∀ l' p2, get_et_pipeline connection.pipelines m.name = none →
      connection.create_pipeline ⟨m.name, m.input_bucket, m.output_bucket, m.role,
        fix_up_notifications_dict m.notifications⟩ = .ok l' →
      get_et_pipeline l' m.name = some p2 →
      (create_et_pipeline connection m).1 =
        Outcome.exited true (some p2.Name) (some p2.Id)) ∧
    (∀ p l', get_et_pipeline connection.pipelines m.name = some p →
      connection.delete_pipeline p.Id = .ok l' →
      (delete_et_pipeline connection m).1 =
        Outcome.exited true none (some p.Id)) ∧
    (get_et_pipeline connection.pipelines m.name = none →
      delete_et_pipeline connection m = (Outcome.exited false none none, [])) := by
  refine ⟨fun p hget heq => ?_, fun p l' hget hneq hok => ?_,
    fun l' p2 hget hok href => ?_, fun p l' hget hok => ?_,
    fun hget => delete_absent connection m hget⟩
  · rw [create_present_equal connection m p hget heq]
  · rw [create_present_unequal_ok connection m p l' hget hneq hok]
  · rw [create_absent_ok_found connection m l' p2 hget hok href]
  · rw [delete_present_ok connection m p l' hget hok]

theorem claim9_amended_witness :
    (create_et_pipeline eqConn prodParams).1 =
      Outcome.exited false (some (some "prod")) (some (some "id-1")) ∧
    (create_et_pipeline updConn roleParams).1 =
      Outcome.exited true (some (some "prod")) (some (some "id-1")) ∧
    (create_et_pipeline absentConn prodParams).1 =
      Outcome.exited true (some (some "prod")) (some (some "id-9")) ∧
    (delete_et_pipeline delConn prodParams).1 =
      Outcome.exited true none (some (some "id-1")) ∧
    delete_et_pipeline lostConn prodParams = (Outcome.exited false none none, []) :=
  ⟨(claim9_amended_success_outputs eqConn prodParams).1 prodPipeline (by rfl) (by decide),
   (claim9_amended_success_outputs updConn roleParams).2.1 prodPipeline []
     (by rfl) (by decide) (by rfl),
   (claim9_amended_success_outputs absentConn prodParams).2.2.1 [newPipeline] newPipeline
     (by rfl) (by rfl) (by rfl),
   (claim9_amended_success_outputs delConn prodParams).2.2.2.1 prodPipeline []
     (by rfl) (by rfl),
   (claim9_amended_success_outputs lostConn prodParams).2.2.2.2 (by rfl)⟩

/-- C10: on the create branch, the success report dereferences the
re-fetched pipeline with no `None` check: whenever the post-create re-fetch
by name returns `None`, the invocation ends in an uncaught `AttributeError`
(`result.get` on `None`) — neither a clean `exit_json` nor a `fail_json`. -/
theorem claim10_refetch_none_attr_error (connection : Connection) (m : ModuleParams)
    (l' : List Pipeline)
    (hget : get_et_pipeline connection.pipelines m.name = none)
    (hok : connection.create_pipeline ⟨m.name, m.input_bucket, m.output_bucket, m.role,
        fix_up_notifications_dict m.notifications⟩ = .ok l')
    (hmiss : get_et_pipeline l' m.name = none) :
    create_et_pipeline connection m =
      (Outcome.attrError,
       [RemoteCall.create ⟨m.name, m.input_bucket, m.output_bucket, m.role,
         fix_up_notifications_dict m.notifications⟩]) :=
  create_absent_ok_notfound connection m l' hget hok hmiss

theorem claim10_witness :
    create_et_pipeline lostConn prodParams =
      (Outcome.attrError,
       [RemoteCall.create ⟨"prod", some "in", some "out2", some "arn:role", notifRemote⟩]) :=
  claim10_refetch_none_attr_error lostConn prodParams [] (by rfl) (by rfl) (by rfl)
